import Mathlib

/-!
Verification of the task-list HTTP service (Express router `todoRouter.js`,
its JWT auth gate, and the in-memory task repository) against its
natural-language specification.

The router file `src/server/routes/todoRouter.js` is embedded directly.
It contains two router definitions; both are embedded (`handle` for the
first, `handle2` for the second).  The repository (`todoRepository.js`),
the auth middleware (`auth.js`) and the generic error responder (`app.js`)
are not part of the provided sources, so they are modelled from the spec,
as marked on each definition.
-/

namespace Todo

/-- A JavaScript value as far as the router's validation logic can observe
it: `undef` models `undefined` (an absent field), `null` the JS `null`,
and strings, numbers and booleans carry their payload. -/
inductive JsVal where
  | undef
  | null
  | str (s : String)
  | num (n : Int)
  | bool (b : Bool)
deriving DecidableEq

/-- JavaScript truthiness, as used by `!task || !task.description`:
`undefined`, `null`, the empty string, `0` and `false` are falsy. -/
def truthy : JsVal → Bool
  | .undef => false
  | .null => false
  | .str s => s != ""
  | .num n => n != 0
  | .bool b => b

/-- The single runtime error class the embedding needs: calling a method
(such as `.trim()`) on a value that does not have it. -/
inductive JsError where
  | typeError
deriving DecidableEq

/-- The characters JS `String.prototype.trim` strips: ECMA-262 WhiteSpace
(TAB, VT, FF, SP, NBSP, ZWNBSP and the Unicode space separators U+1680,
U+2000..U+200A, U+202F, U+205F, U+3000) plus LineTerminator (LF, CR, LS
U+2028, PS U+2029). -/
def jsWhitespaceChars : List Char :=
  ['\t', '\x0B', '\x0C', ' ', '\u00A0', '\uFEFF',
   '\u1680', '\u2000', '\u2001', '\u2002', '\u2003', '\u2004', '\u2005',
   '\u2006', '\u2007', '\u2008', '\u2009', '\u200A', '\u202F', '\u205F',
   '\u3000', '\n', '\r', '\u2028', '\u2029']

/-- Whether JS `String.prototype.trim` strips the character. -/
def jsWhitespace (c : Char) : Bool := jsWhitespaceChars.contains c

/-- Remove leading and trailing JS whitespace characters from a character
list: the semantics of JS `String.prototype.trim` on the string's
characters. -/
def trimChars (l : List Char) : List Char :=
  ((l.dropWhile jsWhitespace).reverse.dropWhile jsWhitespace).reverse

/-- JS `String.prototype.trim`: the string with surrounding ECMA-262
whitespace removed. -/
def trimString (s : String) : String := ⟨trimChars s.data⟩

/-- Evaluation of `v.trim()`: defined on strings (JS `String.prototype.trim`,
removing surrounding whitespace), a thrown `TypeError` on any other value,
since only strings carry a `trim` method. -/
def jsTrim : JsVal → Except JsError String
  | .str s => .ok (trimString s)
  | _ => .error .typeError

/-- A stored task: `{ id, description }`.  The repository stores whatever
value the router passes as description (the router only passes values that
survived validation, which are strings). -/
structure Task where
  id : Nat
  description : JsVal
deriving DecidableEq

/-- Modelled from the spec: the in-memory `todoRepository` state
(`todoRepository.js` is not among the provided sources) — an ordered
collection of tasks plus the identifier counter. -/
structure Store where
  tasks : List Task
  counter : Nat
deriving DecidableEq

/-- Modelled from the spec: the repository's initial state — empty
collection, identifier counter at its initial value so that the first
created task receives id 1. -/
def Store.init : Store := { tasks := [], counter := 0 }

/-- Modelled from the spec: `getAll()` produces the full ordered sequence
of current tasks. -/
def Store.getAll (s : Store) : List Task := s.tasks

/-- Modelled from the spec: `create(description)` allocates the next
identifier (current counter + 1, then increments the counter), appends the
new task at the end of the collection, and returns the created task. -/
def Store.create (s : Store) (d : JsVal) : Task × Store :=
  let t : Task := { id := s.counter + 1, description := d }
  (t, { tasks := s.tasks ++ [t], counter := s.counter + 1 })

/-- Parse a string of decimal digits into the number it denotes; `none`
when the string is empty or contains a non-digit. -/
def parseNat? (s : String) : Option Nat :=
  if s.data ≠ [] ∧ s.data.all Char.isDigit then
    some (s.data.foldl (fun n c => n * 10 + (c.toNat - 48)) 0)
  else
    none

/-- Modelled from the spec: `deleteById(id)` removes the task whose stored
numeric id matches the textual path parameter (string/number coercion done
correctly: the text must denote the stored number) and reports whether a
task was removed. -/
def Store.deleteById (s : Store) (idStr : String) : Bool × Store :=
  if s.tasks.any (fun t => parseNat? idStr == some t.id) then
    (true, { s with tasks := s.tasks.filter (fun t => parseNat? idStr != some t.id) })
  else
    (false, s)

/-- Modelled from the spec: `reset()` clears the collection and resets the
identifier counter to its initial state. -/
def Store.reset (_ : Store) : Store := Store.init

/-- The `task` object of a create request body: a record with a
`description` field (`JsVal.undef` models a missing field). -/
structure TaskPayload where
  description : JsVal
deriving DecidableEq

/-- Body of a create request: `req.body.task` is either absent/null/falsy
(`none`) or a task object. -/
def CreateBody : Type := Option TaskPayload

/-- Response bodies the routes can produce.  `authMissing` is the
(spec-unspecified) 401 body for a request with no credential header;
`serverError` is the generic 500 body of the outer error responder. -/
inductive RespBody where
  | tasks (ts : List Task)
  | task (t : Task)
  | error (e : String)
  | message (m : String)
  | empty
  | authMissing
  | serverError
deriving DecidableEq

/-- An HTTP response: status code and JSON (or empty) body. -/
structure Response where
  status : Nat
  body : RespBody
deriving DecidableEq

/-- Outcome of the auth middleware: header absent, verification failed, or
verified with a decoded payload (an identifying string). -/
inductive AuthOutcome where
  | missing
  | invalid
  | ok (payload : String)
deriving DecidableEq

/-- Modelled from the spec: the AuthGate (`auth.js` is not among the
provided sources).  It reads the raw token from the designated header; if
absent it fails with `AuthMissing`; otherwise it verifies the token with
the function `verify` (abstracting signature verification against the
shared secret), failing with `AuthInvalid` or proceeding with the decoded
payload. -/
def authGate (verify : String → Option String) (header : Option String) : AuthOutcome :=
  match header with
  | none => .missing
  | some tok =>
    match verify tok with
    | none => .invalid
    | some p => .ok p

/-- The GET `/` handler of the first router definition: respond 200 with
the full task list from the repository. -/
def getHandler (s : Store) : Response × Store :=
  ({ status := 200, body := .tasks s.getAll }, s)

/-- The POST `/create` handler of the first router definition (after
auth): reject with 400 `Task is required` when `!task || !task.description`;
then reject with 400 `Description too short` when
`task.description.trim().length < 3` (a thrown `TypeError` from `.trim()`
on a non-string is caught and forwarded to the error responder as 500);
otherwise create the task and respond 201 with it. -/
def createHandler (s : Store) (body : CreateBody) : Response × Store :=
  match body with
  | none => ({ status := 400, body := .error "Task is required" }, s)
  | some task =>
    if truthy task.description = false then
      ({ status := 400, body := .error "Task is required" }, s)
    else
      match jsTrim task.description with
      | .error _ => ({ status := 500, body := .serverError }, s)
      | .ok trimmed =>
        if trimmed.length < 3 then
          ({ status := 400, body := .error "Description too short" }, s)
        else
          let (created, s2) := s.create task.description
          ({ status := 201, body := .task created }, s2)

/-- The DELETE `/:id` handler of the first router definition (after auth):
call `deleteById` with the textual path parameter; 404 `Task not found`
when nothing was deleted, else 204 with empty body. -/
def deleteHandler (s : Store) (idStr : String) : Response × Store :=
  let (deleted, s2) := s.deleteById idStr
  if deleted then
    ({ status := 204, body := .empty }, s2)
  else
    ({ status := 404, body := .error "Task not found" }, s2)

/-- A request to the first router: GET `/`, POST `/create` with an auth
header and a body, or DELETE `/:id` with an auth header and a textual id. -/
inductive Request where
  | getRoot (header : Option String)
  | createReq (header : Option String) (body : CreateBody)
  | deleteReq (header : Option String) (idStr : String)

/-- The first router definition (`todoRouter.js`, first version): GET `/`
is unprotected; POST `/create` and DELETE `/:id` run the auth middleware
first — `AuthMissing` is surfaced as 401, `AuthInvalid` as 401 with
message `Failed to authenticate token` — and only on success reach the
route handler. -/
def handle (verify : String → Option String) (s : Store) : Request → Response × Store
  | .getRoot _ => getHandler s
  | .createReq h b =>
    match authGate verify h with
    | .missing => ({ status := 401, body := .authMissing }, s)
    | .invalid => ({ status := 401, body := .message "Failed to authenticate token" }, s)
    | .ok _ => createHandler s b
  | .deleteReq h i =>
    match authGate verify h with
    | .missing => ({ status := 401, body := .authMissing }, s)
    | .invalid => ({ status := 401, body := .message "Failed to authenticate token" }, s)
    | .ok _ => deleteHandler s i

/-- The POST `/create` handler of the second router definition (after
auth): identical to the first except that it performs no length check —
any truthy description is persisted directly and answered with 201. -/
def createHandler2 (s : Store) (body : CreateBody) : Response × Store :=
  match body with
  | none => ({ status := 400, body := .error "Task is required" }, s)
  | some task =>
    if truthy task.description = false then
      ({ status := 400, body := .error "Task is required" }, s)
    else
      let (created, s2) := s.create task.description
      ({ status := 201, body := .task created }, s2)

/-- A request to the second router: it defines only GET `/` and POST
`/create` (no DELETE route). -/
inductive Request2 where
  | getRoot (header : Option String)
  | createReq (header : Option String) (body : CreateBody)

/-- The second router definition (`todoRouter.js`, second version): GET `/`
unprotected, POST `/create` behind the same auth middleware, with the
length-check-free create handler. -/
def handle2 (verify : String → Option String) (s : Store) : Request2 → Response × Store
  | .getRoot _ => getHandler s
  | .createReq h b =>
    match authGate verify h with
    | .missing => ({ status := 401, body := .authMissing }, s)
    | .invalid => ({ status := 401, body := .message "Failed to authenticate token" }, s)
    | .ok _ => createHandler2 s b

/-- A store-level operation of a trace: a successful create (the router
passes a validated description) or a delete by textual id. -/
inductive Op where
  | createOp (d : JsVal)
  | deleteOp (idStr : String)

/-- Apply one store operation. -/
def applyOp (s : Store) : Op → Store
  | .createOp d => (s.create d).2
  | .deleteOp i => (s.deleteById i).2

/-- Run a trace of store operations from a given state. -/
def runOps (s : Store) : List Op → Store
  | [] => s
  | op :: rest => runOps (applyOp s op) rest

/-- The ids handed out by the store to the successive creates of a trace,
in order. -/
def assignedIds (s : Store) : List Op → List Nat
  | [] => []
  | .createOp d :: rest => (s.create d).1.id :: assignedIds (s.create d).2 rest
  | .deleteOp i :: rest => assignedIds (s.deleteById i).2 rest

/-- Number of create operations in a trace. -/
def countCreates : List Op → Nat
  | [] => 0
  | .createOp _ :: rest => countCreates rest + 1
  | .deleteOp _ :: rest => countCreates rest

/-- A concrete verification function for witnesses: accepts exactly the
token string `tok`. -/
def verifyT : String → Option String :=
  fun t => if t = "tok" then some "student@example.com" else none

/-! ## Helper lemmas -/

theorem deleteById_counter (s : Store) (i : String) :
    ((s.deleteById i).2).counter = s.counter := by
  unfold Store.deleteById
  split <;> rfl

theorem create_counter (s : Store) (d : JsVal) :
    ((s.create d).2).counter = s.counter + 1 := rfl

theorem assignedIds_eq_range' (ops : List Op) :
    ∀ s : Store, assignedIds s ops = List.range' (s.counter + 1) (countCreates ops) := by
  induction ops with
  | nil => intro s; rfl
  | cons op rest ih =>
    intro s
    cases op with
    | createOp d =>
      show (s.create d).1.id :: assignedIds (s.create d).2 rest = _
      rw [ih, create_counter]
      show (s.counter + 1) :: _ = List.range' (s.counter + 1) (countCreates rest + 1)
      rw [List.range']
    | deleteOp i =>
      show assignedIds (s.deleteById i).2 rest = _
      rw [ih, deleteById_counter]
      rfl

theorem runOps_create_descriptions (ds : List JsVal) :
    ∀ s : Store, ((runOps s (ds.map Op.createOp)).tasks).map Task.description
      = s.tasks.map Task.description ++ ds := by
  induction ds with
  | nil => intro s; simp [runOps]
  | cons d rest ih =>
    intro s
    show ((runOps (applyOp s (.createOp d)) (rest.map Op.createOp)).tasks).map Task.description = _
    rw [ih]
    simp [applyOp, Store.create]

theorem handle_create_auth (verify : String → Option String) (s : Store)
    (tok p : String) (body : CreateBody) (hv : verify tok = some p) :
    handle verify s (.createReq (some tok) body) = createHandler s body := by
  simp [handle, authGate, hv]

theorem handle_delete_auth (verify : String → Option String) (s : Store)
    (tok p idStr : String) (hv : verify tok = some p) :
    handle verify s (.deleteReq (some tok) idStr) = deleteHandler s idStr := by
  simp [handle, authGate, hv]

/-! ## Claim theorems -/

/-- C2: for every finite trace of successful creates, possibly interleaved
with deletes, starting from the initial (or freshly reset) store, the ids
assigned to the successive creates are exactly 1, 2, 3, ... (the
consecutive range starting at 1, one per create, strictly increasing by 1,
all distinct, never reused even after deletion of the task holding one). -/
theorem c2_ids_sequential (ops : List Op) :
    assignedIds Store.init ops = List.range' 1 (countCreates ops) ∧
    (assignedIds Store.init ops).Nodup := by
  have h := assignedIds_eq_range' ops Store.init
  refine ⟨h, ?_⟩
  rw [h]
  exact List.nodup_range' _ _

/-- C7: the GET `/` route needs no authentication and always answers 200
with the full current task list of the store, and after `n` successful
creates from the initial store with no deletes that list holds exactly the
`n` created descriptions in creation order. -/
theorem c7_list_route :
    (∀ (verify : String → Option String) (header : Option String) (s : Store),
      handle verify s (.getRoot header) = ({ status := 200, body := .tasks s.getAll }, s)) ∧
    (∀ ds : List JsVal,
      ((runOps Store.init (ds.map Op.createOp)).getAll).map Task.description = ds ∧
      ((runOps Store.init (ds.map Op.createOp)).getAll).length = ds.length) := by
  constructor
  · intro verify header s; rfl
  · intro ds
    have h := runOps_create_descriptions ds Store.init
    simp only [Store.init, List.map_nil, List.nil_append] at h
    refine ⟨h, ?_⟩
    have := congrArg List.length h
    simpa using this

/-- C8: `reset()` empties the collection (a subsequent list request
returns the empty sequence) and restores the identifier counter, so the
first task created after a reset receives id 1 — from every prior store
state. -/
theorem c8_reset (s : Store) (d : JsVal) :
    (s.reset).getAll = [] ∧
    ((s.reset).create d).1.id = 1 ∧
    (∀ (verify : String → Option String) (header : Option String),
      handle verify (s.reset) (.getRoot header)
        = ({ status := 200, body := .tasks [] }, s.reset)) :=
  ⟨rfl, rfl, fun _ _ => rfl⟩

/-- C1 counterexample: the claim fails at the empty-string description.
An authenticated create whose description is `""` trims to 0 characters
(fewer than 3), yet the response body is the missing-task error
`Task is required`, not `Description too short`: the empty string is falsy,
so the presence check fires first. -/
theorem c1_empty_description_counterexample :
    trimString "" = "" ∧
    (handle verifyT Store.init (.createReq (some "tok") (some { description := .str "" }))).1
        = { status := 400, body := .error "Task is required" } ∧
    (handle verifyT Store.init (.createReq (some "tok") (some { description := .str "" }))).1
        ≠ { status := 400, body := .error "Description too short" } := by
  decide

/-- C1 (amended): for every authenticated POST `/create` whose description
is a non-empty string that trims to fewer than 3 characters, the response
is 400 with body `Description too short`, the store is unchanged, and this
error is distinguishable from the missing-task error.  (The empty string
is excluded: being falsy it triggers the missing-task error instead.) -/
theorem c1_short_description_amended (verify : String → Option String)
    (tok p d : String) (s : Store) (hv : verify tok = some p) (hne : d ≠ "")
    (hshort : (trimString d).length < 3) :
    handle verify s (.createReq (some tok) (some { description := .str d }))
        = ({ status := 400, body := .error "Description too short" }, s) ∧
    RespBody.error "Description too short" ≠ RespBody.error "Task is required" := by
  refine ⟨?_, by simp⟩
  rw [handle_create_auth verify s tok p _ hv]
  simp [createHandler, truthy, hne, jsTrim, hshort]

/-- C1 witness: the amended theorem at the concrete description `"A"`. -/
theorem c1_short_description_amended_witness :
    handle verifyT Store.init (.createReq (some "tok") (some { description := .str "A" }))
        = ({ status := 400, body := .error "Description too short" }, Store.init) ∧
    RespBody.error "Description too short" ≠ RespBody.error "Task is required" :=
  c1_short_description_amended verifyT "tok" "student@example.com" "A" Store.init
    (by decide) (by decide) (by decide)

/-- C3: on both mutating routes (POST `/create` and DELETE `/:id`), a
request with no credential header is answered 401, and a request whose
credential fails verification is answered 401 with the message
`Failed to authenticate token`; in all four cases the store is returned
unchanged and the route handler is never reached (the response does not
depend on the body or the path parameter). -/
theorem c3_auth_rejection (verify : String → Option String) (s : Store)
    (body : CreateBody) (idStr tok : String) (hv : verify tok = none) :
    handle verify s (.createReq none body) = ({ status := 401, body := .authMissing }, s) ∧
    handle verify s (.deleteReq none idStr) = ({ status := 401, body := .authMissing }, s) ∧
    handle verify s (.createReq (some tok) body)
        = ({ status := 401, body := .message "Failed to authenticate token" }, s) ∧
    handle verify s (.deleteReq (some tok) idStr)
        = ({ status := 401, body := .message "Failed to authenticate token" }, s) := by
  refine ⟨rfl, rfl, ?_, ?_⟩ <;> simp [handle, authGate, hv]

/-- C3 witness: the theorem at a concrete invalid token and a concrete
request. -/
theorem c3_auth_rejection_witness :
    handle verifyT Store.init (.createReq (some "invalid-token") (some { description := .str "Test task" }))
        = ({ status := 401, body := .message "Failed to authenticate token" }, Store.init) :=
  (c3_auth_rejection verifyT Store.init (some { description := .str "Test task" })
    "1" "invalid-token" (by decide)).2.2.1

/-- C5: an authenticated POST `/create` whose payload passes both checks
(a description that is a non-empty string trimming to at least 3
characters) calls the store's create operation — the resulting state is
exactly `Store.create`'s — and answers 201 with the created task, which
carries the newly assigned id `counter + 1` and the submitted
description. -/
theorem c5_create_success (verify : String → Option String) (tok p d : String)
    (s : Store) (hv : verify tok = some p) (hne : d ≠ "")
    (hlen : 3 ≤ (trimString d).length) :
    handle verify s (.createReq (some tok) (some { description := .str d }))
        = ({ status := 201, body := .task (s.create (.str d)).1 }, (s.create (.str d)).2) ∧
    (s.create (.str d)).1 = { id := s.counter + 1, description := .str d } := by
  refine ⟨?_, rfl⟩
  rw [handle_create_auth verify s tok p _ hv]
  simp [createHandler, truthy, hne, jsTrim, Nat.not_lt.mpr hlen, Store.create]

/-- C5 witness: the theorem at the concrete description `"Test task"` on
the initial store; the created task receives id 1. -/
theorem c5_create_success_witness :
    handle verifyT Store.init (.createReq (some "tok") (some { description := .str "Test task" }))
        = ({ status := 201, body := .task (Store.init.create (.str "Test task")).1 },
           (Store.init.create (.str "Test task")).2) ∧
    (Store.init.create (.str "Test task")).1 = { id := 1, description := .str "Test task" } :=
  c5_create_success verifyT "tok" "student@example.com" "Test task" Store.init
    (by decide) (by decide) (by decide)

/-- C6: an authenticated POST `/create` whose body has no task object, or
whose task object's description is not truthy (absent, null, empty string,
0 or false), is answered 400 with body `Task is required` and the store is
untouched; since this presence check precedes the length check, exactly
this one error is reported even when the description would also fail the
length check. -/
theorem c6_missing_task (verify : String → Option String) (tok p : String)
    (s : Store) (body : CreateBody) (hv : verify tok = some p)
    (hmiss : body = none ∨ ∃ t, body = some t ∧ truthy t.description = false) :
    handle verify s (.createReq (some tok) body)
        = ({ status := 400, body := .error "Task is required" }, s) := by
  rw [handle_create_auth verify s tok p _ hv]
  rcases hmiss with rfl | ⟨t, rfl, htr⟩
  · rfl
  · simp [createHandler, htr]

/-- C6 witness: the theorem at the concrete body `{ task: null }`. -/
theorem c6_missing_task_witness :
    handle verifyT Store.init (.createReq (some "tok") none)
        = ({ status := 400, body := .error "Task is required" }, Store.init) :=
  c6_missing_task verifyT "tok" "student@example.com" Store.init none
    (by decide) (Or.inl rfl)

/-- C4: for an authenticated DELETE `/:id`: when no stored task's numeric
id is denoted by the textual path parameter, the response is 404 with an
error body and the store is returned unchanged; when a stored task matches,
the response is 204 with empty body and exactly that task is removed — the
remaining list is a sublist of the old one that misses the matched task,
keeps every task with a different id, and the id counter is untouched. -/
theorem c4_delete_route (verify : String → Option String) (tok p idStr : String)
    (s : Store) (hv : verify tok = some p) :
    ((∀ t ∈ s.tasks, parseNat? idStr ≠ some t.id) →
      handle verify s (.deleteReq (some tok) idStr)
          = ({ status := 404, body := .error "Task not found" }, s)) ∧
    (∀ t ∈ s.tasks, parseNat? idStr = some t.id →
      (handle verify s (.deleteReq (some tok) idStr)).1 = { status := 204, body := .empty } ∧
      ((handle verify s (.deleteReq (some tok) idStr)).2.tasks).Sublist s.tasks ∧
      t ∉ (handle verify s (.deleteReq (some tok) idStr)).2.tasks ∧
      (∀ u ∈ s.tasks, u.id ≠ t.id →
        u ∈ (handle verify s (.deleteReq (some tok) idStr)).2.tasks) ∧
      (handle verify s (.deleteReq (some tok) idStr)).2.counter = s.counter) := by
  rw [handle_delete_auth verify s tok p idStr hv]
  constructor
  · intro hnone
    have hany : s.tasks.any (fun t => parseNat? idStr == some t.id) = false := by
      simp only [List.any_eq_false]
      intro t ht
      simpa using hnone t ht
    simp [deleteHandler, Store.deleteById, hany]
  · intro t ht hid
    have hany : s.tasks.any (fun u => parseNat? idStr == some u.id) = true := by
      simp only [List.any_eq_true]
      exact ⟨t, ht, by simp [hid]⟩
    have hred : deleteHandler s idStr
        = ({ status := 204, body := .empty },
           { s with tasks := s.tasks.filter (fun u => parseNat? idStr != some u.id) }) := by
      simp [deleteHandler, Store.deleteById, hany]
    rw [hred]
    refine ⟨rfl, List.filter_sublist _, ?_, ?_, rfl⟩
    · simp [List.mem_filter, hid]
    · intro u hu hne
      simp only [List.mem_filter]
      refine ⟨hu, ?_⟩
      simp only [bne_iff_ne, ne_eq, hid, Option.some.injEq]
      exact fun h => hne h.symm

/-- C4 witness: the theorem's two parts at concrete inputs — deleting id
999 from a one-task store answers 404 and leaves it unchanged, and
deleting id 1 answers 204 and removes that task. -/
theorem c4_delete_route_witness :
    (handle verifyT { tasks := [{ id := 1, description := .str "Task to delete" }], counter := 1 }
        (.deleteReq (some "tok") "999")
      = ({ status := 404, body := .error "Task not found" },
         { tasks := [{ id := 1, description := .str "Task to delete" }], counter := 1 })) ∧
    (handle verifyT { tasks := [{ id := 1, description := .str "Task to delete" }], counter := 1 }
        (.deleteReq (some "tok") "1")).1 = { status := 204, body := .empty } :=
  ⟨(c4_delete_route verifyT "tok" "student@example.com" "999"
      { tasks := [{ id := 1, description := .str "Task to delete" }], counter := 1 }
      (by decide)).1 (by decide),
   ((c4_delete_route verifyT "tok" "student@example.com" "1"
      { tasks := [{ id := 1, description := .str "Task to delete" }], counter := 1 }
      (by decide)).2 { id := 1, description := .str "Task to delete" }
      (by decide) (by decide)).1⟩

/-- C9 counterexample: the two router definitions of `todoRouter.js` do
not produce the same status and body on every request — on an
authenticated POST `/create` whose description `"A"` is truthy but trims
to fewer than 3 characters, the first router answers 400
`Description too short` while the second answers 201. -/
theorem c9_routers_differ :
    handle verifyT Store.init (.createReq (some "tok") (some { description := .str "A" })) ≠
      handle2 verifyT Store.init (.createReq (some "tok") (some { description := .str "A" })) ∧
    (handle verifyT Store.init (.createReq (some "tok") (some { description := .str "A" }))).1
        = { status := 400, body := .error "Description too short" } ∧
    (handle2 verifyT Store.init (.createReq (some "tok") (some { description := .str "A" }))).1.status
        = 201 := by
  decide

/-- C9 (amended): the two router definitions agree on every GET `/`
request, on every create request rejected by auth, and on every
authenticated POST `/create` whose description is absent, falsy, or a
non-empty string trimming to at least 3 characters; they differ on
authenticated creates whose description is truthy but trims to fewer than
3 characters (first: 400 `Description too short`; second: 201) or is a
truthy non-string, and the second router defines no DELETE route at all. -/
theorem c9_routers_agree_amended (verify : String → Option String) (s : Store)
    (header : Option String) (body : CreateBody)
    (hok : body = none ∨ ∃ t, body = some t ∧
      (truthy t.description = false ∨
        ∃ d, t.description = .str d ∧ d ≠ "" ∧ 3 ≤ (trimString d).length)) :
    handle verify s (.createReq header body) = handle2 verify s (.createReq header body) ∧
    ∀ h2 : Option String, handle verify s (.getRoot h2) = handle2 verify s (.getRoot h2) := by
  refine ⟨?_, fun h2 => rfl⟩
  cases header with
  | none => rfl
  | some tok =>
    cases hvt : verify tok with
    | none => simp [handle, handle2, authGate, hvt]
    | some p =>
      simp only [handle, handle2, authGate, hvt]
      rcases hok with rfl | ⟨t, rfl, htr | ⟨d, hd, hne, hlen⟩⟩
      · rfl
      · simp [createHandler, createHandler2, htr]
      · obtain ⟨desc⟩ := t
        cases hd
        simp [createHandler, createHandler2, truthy, hne, jsTrim, Nat.not_lt.mpr hlen]

/-- C9 witness: the amended agreement at a concrete valid create request. -/
theorem c9_routers_agree_amended_witness :
    handle verifyT Store.init (.createReq (some "tok") (some { description := .str "Test task" }))
      = handle2 verifyT Store.init (.createReq (some "tok") (some { description := .str "Test task" })) :=
  (c9_routers_agree_amended verifyT Store.init (some "tok")
    (some { description := .str "Test task" })
    (Or.inr ⟨_, rfl, Or.inr ⟨"Test task", rfl, by decide, by decide⟩⟩)).1

/-- C10: an authenticated POST `/create` whose description is truthy but
not a string (for example a number) does not crash the handler: the
`TypeError` thrown by `.trim()` is caught and forwarded to the generic
error responder, so the response is the 500 server error — not a 400
validation error — and the store is unchanged. -/
theorem c10_nonstring_description_500 (verify : String → Option String)
    (tok p : String) (s : Store) (d : JsVal) (hv : verify tok = some p)
    (ht : truthy d = true) (hs : ∀ x : String, d ≠ .str x) :
    handle verify s (.createReq (some tok) (some { description := d }))
        = ({ status := 500, body := .serverError }, s) := by
  rw [handle_create_auth verify s tok p _ hv]
  cases d with
  | undef => simp [truthy] at ht
  | null => simp [truthy] at ht
  | str x => exact absurd rfl (hs x)
  | num n => simp [createHandler, ht, jsTrim]
  | bool b => simp [createHandler, ht, jsTrim]

/-- C10 witness: the theorem at the concrete numeric description `5`. -/
theorem c10_nonstring_description_500_witness :
    handle verifyT Store.init (.createReq (some "tok") (some { description := .num 5 }))
        = ({ status := 500, body := .serverError }, Store.init) :=
  c10_nonstring_description_500 verifyT "tok" "student@example.com" Store.init (.num 5)
    (by decide) (by decide) (fun x h => JsVal.noConfusion h)

end Todo
